import Mathlib

/-!
Shallow embedding of the `httpux` package (HTTP-over-UDP client) and proofs
about its transmitter loop, response collector and orchestration.

The embedding models each Go function over explicit traces of external
events (ticker fires, context cancellation, socket read/write outcomes),
since the network and the scheduler are outside the program.  Each Lean
definition mirrors the control flow of the Go function it is named after.
-/

namespace Httpux

/-- Result of `req.Context().Err()` once the Done channel of the context has
fired: the Go context contract guarantees this is non-nil, either
`context.Canceled` or `context.DeadlineExceeded`. -/
inductive CtxError where
  | canceled
  | deadlineExceeded
deriving DecidableEq, Repr

/-- The per-operation view of a `*http.Request` that `sendHTTPURequest`
reads: `req.Method`, `req.URL.RequestURI()`, the bytes produced by
`req.Header.Write` (an external codec, treated as opaque text), and
`req.Host` (the destination). -/
structure HTTPURequest where
  method : String
  requestURI : String
  headerBytes : String
  host : String
deriving DecidableEq, Repr

/-- The request payload built in `sendHTTPURequest` (httpux.go:145-158):
`fmt.Fprintf(&requestBuf, "%s %s HTTP/1.1\r\n", method, req.URL.RequestURI())`
with `method` defaulted to "GET" when empty, then `req.Header.Write(&requestBuf)`,
then the terminating CR LF bytes.  Writes to a `bytes.Buffer` never fail,
so the three error checks in the source are dead and the build is total. -/
def requestBuf (req : HTTPURequest) : String :=
  let method := if req.method = "" then "GET" else req.method
  let buf := method ++ " " ++ req.requestURI ++ " HTTP/1.1" ++ "\r\n"
  let buf := buf ++ req.headerBytes
  let buf := buf ++ "\r\n"
  buf

/-- Errors `sendHTTPURequest` can return (httpux.go:160-185): address
resolution failure, socket write failure, or a short write. -/
inductive SendError where
  | resolveError (msg : String)
  | writeError (msg : String)
  | shortWrite (n total : Nat)
deriving DecidableEq, Repr

/-- Outcome of the external calls one send attempt makes:
`net.ResolveUDPAddr("udp", req.Host)` (`resolve = some msg` is its error),
and `conn.WriteTo` returning `(writeN, writeErr)`. -/
structure SendAttempt where
  resolve : Option String
  writeN : Nat
  writeErr : Option String
deriving DecidableEq, Repr

/-- Model of `sendHTTPURequest` (httpux.go:141-186): build the payload, resolve the
destination, write it in one datagram; a write of fewer bytes than the
payload is an error.  Returns `none` for a nil error. -/
def sendHTTPURequest (req : HTTPURequest) (a : SendAttempt) : Option SendError :=
  let payload := requestBuf req
  match a.resolve with
  | some msg => some (SendError.resolveError msg)
  | none =>
    match a.writeErr with
    | some msg => some (SendError.writeError msg)
    | none =>
      if a.writeN < payload.length then
        some (SendError.shortWrite a.writeN payload.length)
      else
        none

/-- One iteration of the `select` in `startLoopSendHTTPURequest`
(httpux.go:127-135): either the ticker fires (with the external outcomes
of that send attempt) or the Done channel of the context fires. -/
inductive SendEvent where
  | tick (a : SendAttempt)
  | ctxDone (ce : CtxError)
deriving DecidableEq, Repr

/-- Value returned by `startLoopSendHTTPURequest`: a send error
(`return err`, httpux.go:131) or the context error
(`return ctx.Err()`, httpux.go:134). -/
inductive LoopError where
  | send (e : SendError)
  | ctx (ce : CtxError)
deriving DecidableEq, Repr

/-- The transmitter loop `startLoopSendHTTPURequest` (httpux.go:123-139)
over a finite trace of
select outcomes.  First component: `none` when the loop is still running
after consuming the trace (blocked in `select`); `some r` when it returned,
with `r : Option LoopError` the returned error (`r = none` would be a nil
return — the trailing `return nil` at httpux.go:138 is unreachable).
Second component: how many times `sendHTTPURequest` was invoked. -/
def startLoopSendHTTPURequest (req : HTTPURequest) :
    List SendEvent → Option (Option LoopError) × Nat
  | [] => (none, 0)
  | SendEvent.tick a :: rest =>
    match sendHTTPURequest req a with
    | some e => (some (some (LoopError.send e)), 1)
    | none =>
      let p := startLoopSendHTTPURequest req rest
      (p.1, p.2 + 1)
  | SendEvent.ctxDone ce :: _ => (some (some (LoopError.ctx ce)), 0)

/-- The constant `LocalAddressHeader` (httpux.go:224). -/
def LocalAddressHeader : String := "goupnp-local-address"

/-- A parsed HTTP response as the collector sees it: its header, modelled
as the list of (name, value) pairs in insertion order.  `http.Header.Add`
appends a value for a name. -/
structure Response where
  headers : List (String × String)
deriving DecidableEq, Repr

/-- Model of `response.Header.Add(name, value)`: record one more (name, value)
pair on the response. -/
def addHeader (r : Response) (name value : String) : Response :=
  { r with headers := r.headers ++ [(name, value)] }

/-- A read error as classified by `startReceiveResponse`
(httpux.go:193-204): whether the type assertion `err.(net.Error)`
succeeds, and if so the results of `err.Timeout()` and
`err.Temporary()`; `msg` identifies the error value itself. -/
structure ReadError where
  isNetError : Bool
  timeout : Bool
  temporary : Bool
  msg : String
deriving DecidableEq, Repr

/-- Outcome of one `httpu.conn.ReadFrom(responseBytes)` call, together
with the outcome of handing the received bytes to the external parser
`http.ReadResponse` (`Except.error msg` when parsing fails,
`Except.ok r` for a parsed response). -/
inductive ReadOutcome where
  | bytes (parsed : Except String Response)
  | readErr (e : ReadError)
deriving Repr

/-- Observable outcome of running the collector loop on a finite trace:
`result` is `none` while the loop is still running (blocked in
`ReadFrom`) and `some r` once the function returned with error `r`
(`none` = nil); `delivered` lists every response sent on the `receiver`
channel of the client, in order; `sleepsMs` lists the durations (in
milliseconds) of the `time.Sleep` calls performed, in order. -/
structure RecvRun where
  result : Option (Option String)
  delivered : List Response
  sleepsMs : List Nat
deriving DecidableEq, Repr

/-- The collector `startReceiveResponse` (httpux.go:188-222) over a
finite trace of read outcomes.  A timeout-classified `net.Error` breaks
the loop, reaching `return nil` (httpux.go:195-197, 221); a
temporary-classified one sleeps 10 ms and retries (httpux.go:198-202);
any other read error is returned (httpux.go:204).  A datagram that
fails to parse is logged and skipped (httpux.go:209-211).  On parse
success the source adds the local-address header when
`conn.LocalAddr()` is a `*net.UDPAddr` (httpux.go:217-219, `localIP`
here is `a.IP.String()`, `none` when the assertion fails) and then
reaches the top of the loop with no send on `httpu.receiver`, so the
annotated response is dropped and `delivered` never grows. -/
def startReceiveResponse (localIP : Option String) :
    List ReadOutcome → RecvRun
  | [] => { result := none, delivered := [], sleepsMs := [] }
  | ReadOutcome.readErr e :: rest =>
    if e.isNetError && e.timeout then
      { result := some none, delivered := [], sleepsMs := [] }
    else if e.isNetError && e.temporary then
      -- time.Sleep(10 * time.Millisecond); continue
      let r := startReceiveResponse localIP rest
      { r with sleepsMs := 10 :: r.sleepsMs }
    else
      { result := some (some e.msg), delivered := [], sleepsMs := [] }
  | ReadOutcome.bytes parsed :: rest =>
    match parsed with
    | Except.error _ =>
      -- log.Printf(...); continue
      startReceiveResponse localIP rest
    | Except.ok response =>
      let _annotated :=
        match localIP with
        | some ip => addHeader response LocalAddressHeader ip
        | none => response
      startReceiveResponse localIP rest

/-- Error surfaced by `DoWithContext`: either the error of the transmitter
task or the error of the collector task. -/
inductive OpError where
  | send (e : LoopError)
  | recv (msg : String)
deriving DecidableEq, Repr

/-- Model of `errgroup.Group.Wait` over the task results listed in the real-time
order in which the goroutines returned: each goroutine returning a
non-nil error stores it through a `sync.Once`, so `Wait` reports the
first non-nil error in completion order, and nil when every task
returned nil. -/
def errgroupWait (completed : List (Option OpError)) : Option OpError :=
  completed.findSome? id

/-- The orchestration `DoWithContext` (httpux.go:108-121) over finite traces of the two
external events of the two tasks.  `sendFirst` records which task returned first.
The result is `none` while `tasks.Wait()` is still blocked, i.e. until
both `startLoopSendHTTPURequest` and `startReceiveResponse` have
returned; once both have, it is `some` of the error `Wait` reports. -/
def DoWithContext (req : HTTPURequest) (localIP : Option String)
    (sendEvents : List SendEvent) (recvEvents : List ReadOutcome)
    (sendFirst : Bool) : Option (Option OpError) :=
  match (startLoopSendHTTPURequest req sendEvents).1,
        (startReceiveResponse localIP recvEvents).result with
  | some sres, some rres =>
    let sOpt := sres.map OpError.send
    let rOpt := rres.map OpError.recv
    some (errgroupWait (if sendFirst then [sOpt, rOpt] else [rOpt, sOpt]))
  | _, _ => none

/-- Model of `Do` (httpux.go:97-102): `return httpu.DoWithContext(req, interval)`. -/
def Do (req : HTTPURequest) (localIP : Option String)
    (sendEvents : List SendEvent) (recvEvents : List ReadOutcome)
    (sendFirst : Bool) : Option (Option OpError) :=
  DoWithContext req localIP sendEvents recvEvents sendFirst

/-- The `HTTPUClient` struct (httpux.go:54-58), restricted to what the
lifecycle claims need: whether the `receiver` channel field was
initialized (`some` = a made channel, `none` = the zero value, a nil
channel). -/
structure HTTPUClient where
  receiverMade : Bool
deriving DecidableEq, Repr

/-- Constructor `NewHTTPUClient` (httpux.go:62-68): given the outcome of
`net.ListenPacket("udp", ":0")`, either fail with that error or build
the client with `receiver: make(chan *http.Response)`. -/
def NewHTTPUClient (listenErr : Option String) : Except String HTTPUClient :=
  match listenErr with
  | some msg => Except.error msg
  | none => Except.ok { receiverMade := true }

/-- Constructor `NewHTTPUClientAddr` (httpux.go:72-82): `net.ParseIP(addr)`
is external, its result is `parsedIP` (`none` = invalid address).  On
success the struct literal at httpux.go:81 sets only the `conn` field,
leaving `receiver` at its zero value, a nil channel. -/
def NewHTTPUClientAddr (parsedIP : Option String) (listenErr : Option String) :
    Except String HTTPUClient :=
  match parsedIP with
  | none => Except.error "Invalid listening address"
  | some _ =>
    match listenErr with
    | some msg => Except.error msg
    | none => Except.ok { receiverMade := false }

/-- Spec wording for the join: the first non-nil error of two task
results taken in order, nil when both are nil. -/
def firstError (a b : Option OpError) : Option OpError :=
  match a with
  | some e => some e
  | none => b

/-- Predicate on a transmitter trace: the Done channel of the context never
fires, i.e. the request carries no deadline and is never canceled. -/
def noCtxDone : List SendEvent → Bool
  | [] => true
  | SendEvent.tick _ :: rest => noCtxDone rest
  | SendEvent.ctxDone _ :: _ => false

/-- Predicate on a transmitter trace: every send attempt at a tick
succeeds. -/
def allSendsOk (req : HTTPURequest) : List SendEvent → Bool
  | [] => true
  | SendEvent.tick a :: rest => (sendHTTPURequest req a).isNone && allSendsOk req rest
  | SendEvent.ctxDone _ :: rest => allSendsOk req rest

/-- A concrete SSDP-style search request (method left empty so the GET
default applies). -/
def exampleRequest : HTTPURequest :=
  { method := ""
  , requestURI := "*"
  , headerBytes := "Host: 239.255.255.250:1900\r\n"
  , host := "239.255.255.250:1900" }

/-- A send attempt in which resolution succeeds and the socket reports
the whole payload written. -/
def okSendAttempt : SendAttempt :=
  { resolve := none
  , writeN := (requestBuf exampleRequest).length
  , writeErr := none }

/-- A send attempt in which the socket reports 0 of the payload bytes
written (a short write). -/
def shortWriteAttempt : SendAttempt :=
  { resolve := none, writeN := 0, writeErr := none }

/-- A timeout-classified `net.Error`, as returned by a read once the
deadline passed. -/
def timeoutErr : ReadError :=
  { isNetError := true, timeout := true, temporary := false, msg := "i/o timeout" }

/-- A read that fails with `timeoutErr`. -/
def timeoutRead : ReadOutcome :=
  ReadOutcome.readErr timeoutErr

/-- A temporary-classified `net.Error` that is not a timeout. -/
def tempErr : ReadError :=
  { isNetError := true
  , timeout := false
  , temporary := true
  , msg := "resource temporarily unavailable" }

/-- The same search request with an explicit M-SEARCH method. -/
def msearchRequest : HTTPURequest :=
  { method := "M-SEARCH"
  , requestURI := "*"
  , headerBytes := "Host: 239.255.255.250:1900\r\n"
  , host := "239.255.255.250:1900" }

/-- A concrete parsed response. -/
def exampleResponse : Response :=
  { headers := [("St", "upnp:rootdevice")] }

/-- How a call to `Close` ends: a runtime panic, or a normal return
carrying the error of `conn.Close()`. -/
inductive CloseOutcome where
  | panicked (msg : String)
  | returned (err : Option String)
deriving DecidableEq, Repr

/-- Model of `Close` (httpux.go:86-91): after taking `connLock` it runs
`close(httpu.receiver)`; closing a nil channel panics at runtime, and
otherwise the call returns `httpu.conn.Close()`. -/
def Close (c : HTTPUClient) (connCloseErr : Option String) : CloseOutcome :=
  if c.receiverMade then
    CloseOutcome.returned connCloseErr
  else
    CloseOutcome.panicked "close of nil channel"

/-- If the transmitter loop is still running after a trace `t`, running
it on `t ++ rest` continues with `rest`, accumulating the send count. -/
theorem startLoopSend_append (req : HTTPURequest) (t rest : List SendEvent)
    (h : (startLoopSendHTTPURequest req t).1 = none) :
    startLoopSendHTTPURequest req (t ++ rest)
      = ((startLoopSendHTTPURequest req rest).1,
          (startLoopSendHTTPURequest req t).2 + (startLoopSendHTTPURequest req rest).2) := by
  induction t with
  | nil => simp [startLoopSendHTTPURequest]
  | cons e t ih =>
    cases e with
    | tick a =>
      cases hs : sendHTTPURequest req a with
      | some er => simp [startLoopSendHTTPURequest, hs] at h
      | none =>
        have h' : (startLoopSendHTTPURequest req t).1 = none := by
          simpa [startLoopSendHTTPURequest, hs] using h
        simp only [List.cons_append, startLoopSendHTTPURequest, hs, List.append_eq,
          ih h', Prod.mk.injEq]
        exact ⟨trivial, by omega⟩
    | ctxDone ce => simp [startLoopSendHTTPURequest] at h

/-- Without cancellation and with every send succeeding, the
transmitter loop never returns. -/
theorem sendLoop_still_running (req : HTTPURequest) (t : List SendEvent)
    (h1 : noCtxDone t = true) (h2 : allSendsOk req t = true) :
    (startLoopSendHTTPURequest req t).1 = none := by
  induction t with
  | nil => rfl
  | cons e t ih =>
    cases e with
    | tick a =>
      rw [allSendsOk] at h2
      rw [noCtxDone] at h1
      have ha : sendHTTPURequest req a = none := by
        have := (Bool.and_eq_true _ _).mp h2
        exact Option.isNone_iff_eq_none.mp this.1
      have ht := ((Bool.and_eq_true _ _).mp h2).2
      simp [startLoopSendHTTPURequest, ha, ih h1 ht]
    | ctxDone ce => simp [noCtxDone] at h1

/-- The collector never sends anything on the receiver channel: the
delivered list of any run is empty. -/
theorem startReceive_delivered_nil (la : Option String) (t : List ReadOutcome) :
    (startReceiveResponse la t).delivered = [] := by
  induction t with
  | nil => rfl
  | cons o t ih =>
    cases o with
    | readErr e =>
      by_cases h1 : (e.isNetError && e.timeout) = true
      · simp [startReceiveResponse, h1]
      · by_cases h2 : (e.isNetError && e.temporary) = true
        · simp [startReceiveResponse, h1, h2, ih]
        · simp [startReceiveResponse, h1, h2]
    | bytes p =>
      cases p with
      | error m => simpa [startReceiveResponse] using ih
      | ok r => simpa [startReceiveResponse] using ih

/-- If the collector is still running after a trace `t`, running it on
`t ++ rest` continues with `rest`, accumulating the sleeps. -/
theorem startReceive_append (la : Option String) (t rest : List ReadOutcome)
    (h : (startReceiveResponse la t).result = none) :
    startReceiveResponse la (t ++ rest)
      = { startReceiveResponse la rest with
            sleepsMs := (startReceiveResponse la t).sleepsMs
              ++ (startReceiveResponse la rest).sleepsMs } := by
  induction t with
  | nil => simp [startReceiveResponse]
  | cons o t ih =>
    cases o with
    | readErr e =>
      by_cases h1 : (e.isNetError && e.timeout) = true
      · simp [startReceiveResponse, h1] at h
      · by_cases h2 : (e.isNetError && e.temporary) = true
        · have h' : (startReceiveResponse la t).result = none := by
            simpa [startReceiveResponse, h1, h2] using h
          simp [startReceiveResponse, h1, h2, ih h']
        · simp [startReceiveResponse, h1, h2] at h
    | bytes p =>
      cases p with
      | error m =>
        have h' : (startReceiveResponse la t).result = none := by
          simpa [startReceiveResponse] using h
        simpa [startReceiveResponse] using ih h'
      | ok r =>
        have h' : (startReceiveResponse la t).result = none := by
          simpa [startReceiveResponse] using h
        simpa [startReceiveResponse] using ih h'

/-- Waiting on an errgroup with exactly two tasks reports the first
non-nil error in completion order. -/
theorem errgroupWait_pair (a b : Option OpError) :
    errgroupWait [a, b] = firstError a b := by
  cases a <;> cases b <;> rfl

/-- C1: when the deadline fires between ticks (after one successful
send), `startLoopSendHTTPURequest` returns `ctx.Err()` — a non-nil
`context.DeadlineExceeded` — rather than nil, and `DoWithContext`
surfaces that non-nil error at deadline expiry, contrary to the claim
(and to the interface documentation) that the loop terminates with no
error and the operation returns nil. -/
theorem claim1_deadline_returns_ctx_error :
    startLoopSendHTTPURequest exampleRequest
        [SendEvent.tick okSendAttempt, SendEvent.ctxDone CtxError.deadlineExceeded]
      = (some (some (LoopError.ctx CtxError.deadlineExceeded)), 1)
    ∧ DoWithContext exampleRequest (some "192.168.1.2")
        [SendEvent.tick okSendAttempt, SendEvent.ctxDone CtxError.deadlineExceeded]
        [timeoutRead] true
      = some (some (OpError.send (LoopError.ctx CtxError.deadlineExceeded)))
    ∧ some (some (OpError.send (LoopError.ctx CtxError.deadlineExceeded)))
        ≠ (some none : Option (Option OpError)) := by
  refine ⟨by decide, by decide, by decide⟩

/-- C2: a datagram that parses successfully is annotated with the
local-address header and then dropped — `startReceiveResponse` contains
no send on the `receiver` channel, so the run that parses one response
and then times out delivers nothing, and in general no run ever
delivers a response, contrary to the claim that every parsed response
is delivered to the output queue. -/
theorem claim2_parsed_response_never_delivered :
    startReceiveResponse (some "192.168.1.2")
        [ReadOutcome.bytes (Except.ok exampleResponse), timeoutRead]
      = { result := some none, delivered := [], sleepsMs := [] }
    ∧ ∀ (la : Option String) (t : List ReadOutcome),
        (startReceiveResponse la t).delivered = [] := by
  exact ⟨rfl, startReceive_delivered_nil⟩

/-- C8: `NewHTTPUClientAddr` leaves the `receiver` field at its zero
value (a nil channel), so `Close` on a client it produced executes
`close(nil)` and panics, contrary to the claim that `Close` is safe on
clients from either constructor; on a `NewHTTPUClient` client `Close`
returns normally. -/
theorem claim8_close_panics_on_addr_client :
    NewHTTPUClientAddr (some "127.0.0.1") none = Except.ok { receiverMade := false }
    ∧ Close { receiverMade := false } none
        = CloseOutcome.panicked "close of nil channel"
    ∧ NewHTTPUClient none = Except.ok { receiverMade := true }
    ∧ Close { receiverMade := true } none = CloseOutcome.returned none := by
  exact ⟨rfl, rfl, rfl, rfl⟩

/-- C3: `DoWithContext` returns nothing until both the transmitter and
the collector have finished, and once both have finished it returns the
first non-nil error of the two in completion order (nil when both
succeed). -/
theorem claim3_doWithContext_joins_first_error (req : HTTPURequest)
    (la : Option String) (sE : List SendEvent) (rE : List ReadOutcome)
    (sendFirst : Bool) :
    (((startLoopSendHTTPURequest req sE).1 = none ∨
        (startReceiveResponse la rE).result = none) →
      DoWithContext req la sE rE sendFirst = none)
    ∧ (∀ s r, (startLoopSendHTTPURequest req sE).1 = some s →
        (startReceiveResponse la rE).result = some r →
        DoWithContext req la sE rE sendFirst
          = some (if sendFirst then
                firstError (s.map OpError.send) (r.map OpError.recv)
              else
                firstError (r.map OpError.recv) (s.map OpError.send))
          ∧ (s = none → r = none →
              DoWithContext req la sE rE sendFirst = some none)) := by
  constructor
  · intro hd
    cases hs : (startLoopSendHTTPURequest req sE).1 with
    | none =>
      cases hr : (startReceiveResponse la rE).result <;>
        simp [DoWithContext, hs, hr]
    | some s =>
      cases hr : (startReceiveResponse la rE).result with
      | none => simp [DoWithContext, hs, hr]
      | some r =>
        rw [hs] at hd
        rw [hr] at hd
        rcases hd with hd | hd <;> exact absurd hd (by simp)
  · intro s r hs hr
    constructor
    · cases sendFirst <;> simp [DoWithContext, hs, hr, errgroupWait_pair]
    · intro h1 h2
      subst h1
      subst h2
      cases sendFirst <;> simp [DoWithContext, hs, hr, errgroupWait_pair, firstError]

/-- Witness for C3 at concrete inputs: with both traces empty neither
task has finished and no result is observable; with the transmitter
canceled and the collector timed out, the operation reports the
error of the transmitter, the first non-nil one. -/
theorem claim3_witness :
    DoWithContext exampleRequest (some "192.168.1.2") [] [] true = none
    ∧ DoWithContext exampleRequest (some "192.168.1.2")
        [SendEvent.ctxDone CtxError.canceled] [timeoutRead] true
      = some (some (OpError.send (LoopError.ctx CtxError.canceled))) := by
  constructor
  · exact (claim3_doWithContext_joins_first_error exampleRequest
      (some "192.168.1.2") [] [] true).1 (Or.inl rfl)
  · have h := (claim3_doWithContext_joins_first_error exampleRequest
      (some "192.168.1.2") [SendEvent.ctxDone CtxError.canceled] [timeoutRead] true).2
      (some (LoopError.ctx CtxError.canceled)) none rfl rfl
    simpa [firstError] using h.1

/-- C4: a timeout-classified read error makes the collector break out
of its loop and return nil — for any prefix after which the loop is
still running, appending a timeout read makes the whole run return
success, whatever events would have followed. -/
theorem claim4_timeout_ends_collection_with_nil (la : Option String)
    (t rest : List ReadOutcome) (e : ReadError)
    (h1 : e.isNetError = true) (h2 : e.timeout = true)
    (h : (startReceiveResponse la t).result = none) :
    (startReceiveResponse la (t ++ ReadOutcome.readErr e :: rest)).result
      = some none := by
  rw [startReceive_append la t _ h]
  simp [startReceiveResponse, h1, h2]

/-- Witness for C4: a run that skips one garbage datagram and then
times out returns success. -/
theorem claim4_witness :
    (startReceiveResponse (some "192.168.1.2")
        ([ReadOutcome.bytes (Except.error "malformed")]
          ++ ReadOutcome.readErr timeoutErr :: [])).result = some none := by
  exact claim4_timeout_ends_collection_with_nil (some "192.168.1.2")
    [ReadOutcome.bytes (Except.error "malformed")] [] timeoutErr rfl rfl rfl

/-- C5: a write that transmits fewer bytes than the encoded request
makes `sendHTTPURequest` return a non-nil short-write error; the
transmitter loop returns that error at once and performs no further
sends, whatever events would have followed. -/
theorem claim5_short_write_is_fatal (req : HTTPURequest) (a : SendAttempt)
    (t rest : List SendEvent)
    (h1 : a.resolve = none) (h2 : a.writeErr = none)
    (h3 : a.writeN < (requestBuf req).length)
    (h : (startLoopSendHTTPURequest req t).1 = none) :
    sendHTTPURequest req a
      = some (SendError.shortWrite a.writeN (requestBuf req).length)
    ∧ startLoopSendHTTPURequest req (t ++ SendEvent.tick a :: rest)
      = (some (some (LoopError.send
            (SendError.shortWrite a.writeN (requestBuf req).length))),
          (startLoopSendHTTPURequest req t).2 + 1) := by
  have hs : sendHTTPURequest req a
      = some (SendError.shortWrite a.writeN (requestBuf req).length) := by
    simp [sendHTTPURequest, h1, h2, h3]
  refine ⟨hs, ?_⟩
  rw [startLoopSend_append req t _ h]
  simp [startLoopSendHTTPURequest, hs]

/-- Witness for C5: a first-tick write of 0 bytes ends the loop with
the short-write error after exactly one send attempt. -/
theorem claim5_witness :
    sendHTTPURequest exampleRequest shortWriteAttempt
      = some (SendError.shortWrite 0 (requestBuf exampleRequest).length)
    ∧ startLoopSendHTTPURequest exampleRequest [SendEvent.tick shortWriteAttempt]
      = (some (some (LoopError.send
            (SendError.shortWrite 0 (requestBuf exampleRequest).length))), 0 + 1) := by
  have h := claim5_short_write_is_fatal exampleRequest shortWriteAttempt [] []
    rfl rfl (by decide) rfl
  simpa [startLoopSendHTTPURequest] using h

/-- C6: a datagram whose bytes fail to parse is discarded and the loop
continues — the run with the unparseable datagram equals the run
without it, so a parse failure is never returned as an error and never
terminates collection; in particular, after the failure alone the loop
is still running. -/
theorem claim6_parse_failure_is_skipped (la : Option String)
    (t rest : List ReadOutcome) (msg : String)
    (h : (startReceiveResponse la t).result = none) :
    startReceiveResponse la (t ++ ReadOutcome.bytes (Except.error msg) :: rest)
      = startReceiveResponse la (t ++ rest)
    ∧ (startReceiveResponse la
        (t ++ [ReadOutcome.bytes (Except.error msg)])).result = none := by
  have h1 : ∀ r : List ReadOutcome,
      startReceiveResponse la (t ++ ReadOutcome.bytes (Except.error msg) :: r)
        = startReceiveResponse la (t ++ r) := by
    intro r
    rw [startReceive_append la t _ h, startReceive_append la t _ h]
    simp [startReceiveResponse]
  refine ⟨h1 rest, ?_⟩
  rw [h1 []]
  rw [startReceive_append la t [] h]
  simp [startReceiveResponse]

/-- Witness for C6: one garbage datagram leaves the collector running,
and a later timeout run is unaffected by it. -/
theorem claim6_witness :
    startReceiveResponse (some "192.168.1.2")
        ([] ++ ReadOutcome.bytes (Except.error "malformed") :: [timeoutRead])
      = startReceiveResponse (some "192.168.1.2") ([] ++ [timeoutRead])
    ∧ (startReceiveResponse (some "192.168.1.2")
        ([] ++ [ReadOutcome.bytes (Except.error "malformed")])).result = none := by
  exact claim6_parse_failure_is_skipped (some "192.168.1.2") [] [timeoutRead]
    "malformed" rfl

/-- C7: a read error classified as temporary (not a timeout) makes the
collector sleep 10 ms and retry — the result of the run is that of the
remaining trace, a lone temporary error leaves the loop running, and
exactly one 10 ms sleep is inserted into the sleep sequence of the run. -/
theorem claim7_temporary_error_retried (la : Option String)
    (t rest : List ReadOutcome) (e : ReadError)
    (h1 : e.isNetError = true) (h2 : e.timeout = false) (h3 : e.temporary = true)
    (h : (startReceiveResponse la t).result = none) :
    (startReceiveResponse la (t ++ ReadOutcome.readErr e :: rest)).result
      = (startReceiveResponse la (t ++ rest)).result
    ∧ (startReceiveResponse la (t ++ [ReadOutcome.readErr e])).result = none
    ∧ (startReceiveResponse la (t ++ ReadOutcome.readErr e :: rest)).sleepsMs
      = (startReceiveResponse la t).sleepsMs
          ++ 10 :: (startReceiveResponse la rest).sleepsMs := by
  refine ⟨?_, ?_, ?_⟩
  · rw [startReceive_append la t _ h, startReceive_append la t _ h]
    simp [startReceiveResponse, h1, h2, h3]
  · rw [startReceive_append la t _ h]
    simp [startReceiveResponse, h1, h2, h3]
  · rw [startReceive_append la t _ h]
    simp [startReceiveResponse, h1, h2, h3]

/-- Witness for C7: a lone temporary read error leaves the collector
running having slept once for 10 ms, and followed by a timeout the run
ends in success. -/
theorem claim7_witness :
    (startReceiveResponse (some "192.168.1.2")
        ([] ++ ReadOutcome.readErr tempErr :: [timeoutRead])).result
      = (startReceiveResponse (some "192.168.1.2") ([] ++ [timeoutRead])).result
    ∧ (startReceiveResponse (some "192.168.1.2")
        ([] ++ [ReadOutcome.readErr tempErr])).result = none
    ∧ (startReceiveResponse (some "192.168.1.2")
        ([] ++ ReadOutcome.readErr tempErr :: [timeoutRead])).sleepsMs
      = (startReceiveResponse (some "192.168.1.2") ([] : List ReadOutcome)).sleepsMs
          ++ 10 :: (startReceiveResponse (some "192.168.1.2") [timeoutRead]).sleepsMs := by
  exact claim7_temporary_error_retried (some "192.168.1.2") [] [timeoutRead]
    tempErr rfl rfl rfl rfl

/-- C9: the bytes sent for a request are exactly the request line
`METHOD SP request-target SP HTTP/1.1 CRLF`, then the serialized header
fields, then a terminating CRLF and nothing after it (no body), with
the method falling back to GET when the method of the request is empty. -/
theorem claim9_wire_format (req : HTTPURequest) :
    (req.method ≠ "" →
      requestBuf req
        = req.method ++ " " ++ req.requestURI ++ " HTTP/1.1" ++ "\r\n"
            ++ req.headerBytes ++ "\r\n")
    ∧ (req.method = "" →
      requestBuf req
        = "GET" ++ " " ++ req.requestURI ++ " HTTP/1.1" ++ "\r\n"
            ++ req.headerBytes ++ "\r\n") := by
  constructor <;> intro h <;> simp [requestBuf, h]

/-- Witness for C9 at two concrete requests, one with an explicit
method and one with the empty method that defaults to GET. -/
theorem claim9_witness :
    requestBuf msearchRequest
      = "M-SEARCH" ++ " " ++ "*" ++ " HTTP/1.1" ++ "\r\n"
          ++ "Host: 239.255.255.250:1900\r\n" ++ "\r\n"
    ∧ requestBuf exampleRequest
      = "GET" ++ " " ++ "*" ++ " HTTP/1.1" ++ "\r\n"
          ++ "Host: 239.255.255.250:1900\r\n" ++ "\r\n" := by
  constructor
  · exact (claim9_wire_format msearchRequest).1 (by decide)
  · exact (claim9_wire_format exampleRequest).2 rfl

/-- C10: `Do` is `DoWithContext` — same result on every input — and on
a request whose context never fires (no deadline, no cancellation),
with every send succeeding, `Do` has not returned after any finite
trace: it never returns. -/
theorem claim10_do_is_doWithContext (req : HTTPURequest) (la : Option String)
    (sE : List SendEvent) (rE : List ReadOutcome) (sendFirst : Bool) :
    Do req la sE rE sendFirst = DoWithContext req la sE rE sendFirst
    ∧ (noCtxDone sE = true → allSendsOk req sE = true →
        Do req la sE rE sendFirst = none) := by
  refine ⟨rfl, fun h1 h2 => ?_⟩
  have hs := sendLoop_still_running req sE h1 h2
  cases hr : (startReceiveResponse la rE).result <;>
    simp [Do, DoWithContext, hs, hr]

/-- Witness for C10: a trace of one successful send and no cancellation
leaves `Do` unreturned, and `Do` agrees with `DoWithContext` there. -/
theorem claim10_witness :
    Do exampleRequest (some "192.168.1.2") [SendEvent.tick okSendAttempt] [] true
      = DoWithContext exampleRequest (some "192.168.1.2")
          [SendEvent.tick okSendAttempt] [] true
    ∧ Do exampleRequest (some "192.168.1.2")
        [SendEvent.tick okSendAttempt] [] true = none := by
  have h := claim10_do_is_doWithContext exampleRequest (some "192.168.1.2")
    [SendEvent.tick okSendAttempt] [] true
  exact ⟨h.1, h.2 rfl (by decide)⟩

end Httpux
